import Mathlib

/-!
Verification of the `calcrete` repository (structural cross-sections and
reinforcing-bar layouts).

The Python sources compute geometric properties through the shapely library:
a shape is turned into a closed polygon ring (an explicit vertex list), and
`area` / `length` / `centroid` are the standard shoelace quantities of that
ring.  We embed the ring computations directly: a ring is a list of points,
and the three derived quantities fold over consecutive vertex pairs exactly
as the shoelace formulas do.
-/

namespace Calcrete

open Real Finset

noncomputable section Geometry

/-- Cross product `x_p * y_q - x_q * y_p` of two vertices, the per-edge term of
the shoelace formula. -/
def cross (p q : ℝ × ℝ) : ℝ := p.1 * q.2 - q.1 * p.2

/-- Euclidean length of the segment from `p` to `q`. -/
def segLength (p q : ℝ × ℝ) : ℝ :=
  Real.sqrt ((q.1 - p.1) ^ 2 + (q.2 - p.2) ^ 2)

/-- Fold a two-vertex function over the consecutive pairs of a vertex list. -/
def pairFold (f : ℝ × ℝ → ℝ × ℝ → ℝ) : List (ℝ × ℝ) → ℝ
  | p :: q :: rest => f p q + pairFold f (q :: rest)
  | _ => 0

/-- Signed double area of a closed ring (shoelace sum). -/
def shoelaceSum (l : List (ℝ × ℝ)) : ℝ := pairFold cross l

/-- `Polygon.area` of shapely: absolute value of half the shoelace sum. -/
def ringArea (l : List (ℝ × ℝ)) : ℝ := |shoelaceSum l| / 2

/-- `Polygon.length` of shapely: total length of the boundary segments. -/
def ringLength (l : List (ℝ × ℝ)) : ℝ := pairFold segLength l

/-- Numerator of the x coordinate of the polygon centroid. -/
def centroidSumX (l : List (ℝ × ℝ)) : ℝ :=
  pairFold (fun p q => (p.1 + q.1) * cross p q) l

/-- Numerator of the y coordinate of the polygon centroid. -/
def centroidSumY (l : List (ℝ × ℝ)) : ℝ :=
  pairFold (fun p q => (p.2 + q.2) * cross p q) l

/-- `Polygon.centroid` of shapely: the area-weighted centroid
`(Σ (x_i + x_(i+1)) c_i, Σ (y_i + y_(i+1)) c_i) / (6 * signedArea)` where
`signedArea = shoelaceSum / 2`. -/
def ringCentroid (l : List (ℝ × ℝ)) : ℝ × ℝ :=
  (centroidSumX l / (3 * shoelaceSum l), centroidSumY l / (3 * shoelaceSum l))

/-- `class Rectangular(Geometry)` of `geometry.py`: a rectangle given by its
two side lengths. -/
structure Rectangular where
  length_1 : ℝ
  length_2 : ℝ

/-- The `vertices` property: the closed axis-aligned ring
`(0,0) → (length_1,0) → (length_1,length_2) → (0,length_2) → (0,0)`. -/
def Rectangular.vertices (r : Rectangular) : List (ℝ × ℝ) :=
  [(0, 0), (r.length_1, 0), (r.length_1, r.length_2), (0, r.length_2), (0, 0)]

/-- The `area` property: shapely area of the rectangle's ring. -/
def Rectangular.area (r : Rectangular) : ℝ := ringArea r.vertices

/-- The `perimeter` property: shapely length of the rectangle's ring. -/
def Rectangular.perimeter (r : Rectangular) : ℝ := ringLength r.vertices

/-- The `centroid` property: shapely centroid of the rectangle's ring. -/
def Rectangular.centroid (r : Rectangular) : ℝ × ℝ := ringCentroid r.vertices

/-- `class Circular(Geometry)` of `geometry.py`: a circle given by its radius. -/
structure Circular where
  radius : ℝ

/-- Vertex `k` of the polygon produced by shapely's `Point(0, 0).buffer(radius)`:
the buffer approximates the circle by the inscribed regular polygon with
`4 * quad_segs = 32` sides (default `quad_segs = 8`), all vertices on the
circle of the given radius centred at the origin. -/
def circleVertex (radius : ℝ) (k : ℕ) : ℝ × ℝ :=
  (radius * Real.cos (2 * Real.pi * k / 32), radius * Real.sin (2 * Real.pi * k / 32))

/-- The closed ring of the buffer polygon: 32 edges, vertex 32 closing the
ring at the same point as vertex 0. -/
def circleRing (radius : ℝ) : List (ℝ × ℝ) :=
  (List.range 33).map (circleVertex radius)

/-- The `shape` property of `Circular` is `Point(0, 0).buffer(self.radius)`;
`area` is the shapely area of that polygon. -/
def Circular.area (c : Circular) : ℝ := ringArea (circleRing c.radius)

/-- The `perimeter` property: shapely length of the buffer polygon. -/
def Circular.perimeter (c : Circular) : ℝ := ringLength (circleRing c.radius)

/-- The `centroid` property: shapely centroid of the buffer polygon. -/
def Circular.centroid (c : Circular) : ℝ × ℝ := ringCentroid (circleRing c.radius)

end Geometry

/-- Python exceptions raised by the core: `ValueError` (explicit `raise`),
`TypeError` (arithmetic on `None`), `AttributeError` (missing attribute). -/
inductive PyError
  | valueError (msg : String)
  | typeError (msg : String)
  | attributeError (msg : String)
  deriving DecidableEq

/-- `class GeometryType(Enum)` of `geometry.py` has exactly the members
`RECTANGULAR` and `CIRCULAR`.  Python does not enforce the annotation on
`Element.__init__`, so any runtime value can be stored as the section tag;
`other s` stands for such a non-enum value, the case handled by `volume`'s
final `else` branch. -/
inductive GeometryType
  | RECTANGULAR
  | CIRCULAR
  | other (s : String)
  deriving DecidableEq

/-- `class Element` of `sections.py`: `__init__` stores the section tag and
initialises `length_1`, `length_2`, `length_3` and `radius` to `None`. -/
structure Element where
  sectionKind : GeometryType
  length_1 : Option ℝ
  length_2 : Option ℝ
  length_3 : Option ℝ
  radius : Option ℝ

/-- `Element.__init__`: all dimensions unset. -/
def mkElement (g : GeometryType) : Element :=
  { sectionKind := g, length_1 := none, length_2 := none, length_3 := none,
    radius := none }

/-- `Element.set_length_1`. -/
def Element.set_length_1 (e : Element) (l : ℝ) : Element :=
  { e with length_1 := some l }

/-- `Element.set_length_2`. -/
def Element.set_length_2 (e : Element) (l : ℝ) : Element :=
  { e with length_2 := some l }

/-- `Element.set_length_3`. -/
def Element.set_length_3 (e : Element) (l : ℝ) : Element :=
  { e with length_3 := some l }

/-- `Element.set_radius`. -/
def Element.set_radius (e : Element) (r : ℝ) : Element :=
  { e with radius := some r }

noncomputable section Members

/-- `Element.volume`: dispatches on the section tag.  For `RECTANGULAR` it
returns `length_1 * length_2 * length_3`; if any factor is `None` the Python
multiplication raises an uncaught `TypeError`.  For `CIRCULAR` it returns
`math.pi * radius ** 2 * length_1`; `None ** 2` or `… * None` likewise raise
`TypeError`.  Any tag outside the enum reaches
`raise ValueError("Unsupported geometry type")`. -/
def Element.volume (e : Element) : Except PyError ℝ :=
  match e.sectionKind with
  | .RECTANGULAR =>
    match e.length_1, e.length_2, e.length_3 with
    | some a, some b, some c => .ok (a * b * c)
    | _, _, _ =>
      .error (.typeError "unsupported operand type(s) for *: NoneType")
  | .CIRCULAR =>
    match e.radius, e.length_1 with
    | some r, some l => .ok (Real.pi * r ^ 2 * l)
    | _, _ =>
      .error (.typeError "unsupported operand type(s) for ** or *: NoneType")
  | .other _ => .error (.valueError "Unsupported geometry type")

/-- Result of reading the `Bar.coordinates` property: the tuple
`(self.x, self.y)`, or the message returned when an `AttributeError` is
caught. -/
inductive CoordView
  | tup (x y : Option ℝ)
  | msg (s : String)

/-- `class Bar` of `reinforcement.py`: `__init__` stores the circular
geometry and initialises `self.x` and `self.y` to `None`. -/
structure Bar where
  geometry : Circular
  x : Option ℝ
  y : Option ℝ

/-- `Bar.__init__`. -/
def mkBar (g : Circular) : Bar := { geometry := g, x := none, y := none }

/-- `Bar.diameter` evaluates `self.geometry.diameter`; class `Circular` of
`geometry.py` defines no `diameter` attribute (nor does its `Geometry` base
class), so the attribute lookup raises `AttributeError`. -/
def Bar.diameter (_ : Bar) : Except PyError ℝ :=
  .error (.attributeError "Circular object has no attribute diameter")

/-- `Bar.area`: returns `self.geometry.area`, delegating to the circle. -/
def Bar.area (b : Bar) : ℝ := b.geometry.area

/-- `Bar.set_coordinates`: unconditional mutation, no validation. -/
def Bar.set_coordinates (b : Bar) (x y : ℝ) : Bar :=
  { b with x := some x, y := some y }

/-- `Bar.coordinates`:
`try: return (self.x, self.y) except AttributeError: return
"No coordinates assigned yet"`.  Since `__init__` always initialises
`self.x` and `self.y` (to `None`), the attribute access never raises and the
`except` branch is dead code: the property always returns the tuple. -/
def Bar.coordinates (b : Bar) : CoordView := .tup b.x b.y

end Members

/-- `class Reinforcement` of `reinforcement.py`: all fields optional at
construction.  Numeric fields are modelled as exact rationals. -/
structure Reinforcement where
  bar : Option Bar
  cover : Option ℚ
  location : Option String
  quantity : Option ℤ
  spacing : Option ℚ

/-- Python's `int()` applied to a number: truncation toward zero. -/
def pyInt (q : ℚ) : ℤ := if 0 ≤ q then ⌊q⌋ else ⌈q⌉

/-- `Reinforcement.calculate_spacing`: evaluates
`effective_space / (self.quantity - 1)` and, on success, assigns it to
`self.spacing`.  `None - 1` raises `TypeError`, caught and re-raised as
`ValueError("Provide a valid quantity of bars first.")`; a zero divisor
(`quantity == 1`) raises `ZeroDivisionError`, caught and re-raised as
`ValueError("Quantity must be greater than 1 to calculate spacing.")`.
In either failure the assignment never happens, so the object is returned
unchanged alongside the error. -/
def Reinforcement.calculate_spacing (r : Reinforcement)
    (effective_space : ℚ) : Reinforcement × Option PyError :=
  match r.quantity with
  | none => (r, some (.valueError "Provide a valid quantity of bars first."))
  | some q =>
    if q = 1 then
      (r, some (.valueError
        "Quantity must be greater than 1 to calculate spacing."))
    else
      ({ r with spacing := some (effective_space / ((q : ℚ) - 1)) }, none)

/-- `Reinforcement.calculate_quantity`: evaluates
`int(effective_space / self.spacing) + 1` and, on success, assigns it to
`self.quantity`.  `effective_space / None` raises `TypeError`, caught and
re-raised as `ValueError("Provide a valid spacing first.")`; `spacing == 0`
raises `ZeroDivisionError`, caught and re-raised as
`ValueError("Spacing must be greater than 0 to calculate quantity.")`. -/
def Reinforcement.calculate_quantity (r : Reinforcement)
    (effective_space : ℚ) : Reinforcement × Option PyError :=
  match r.spacing with
  | none => (r, some (.valueError "Provide a valid spacing first."))
  | some s =>
    if s = 0 then
      (r, some (.valueError
        "Spacing must be greater than 0 to calculate quantity."))
    else
      ({ r with quantity := some (pyInt (effective_space / s) + 1) }, none)

theorem pairFold_range' (f : ℝ × ℝ → ℝ × ℝ → ℝ) (v : ℕ → ℝ × ℝ) :
    ∀ n k, pairFold f ((List.range' k (n + 1)).map v) =
      ∑ j ∈ Finset.range n, f (v (k + j)) (v (k + j + 1)) := by
  intro n
  induction n with
  | zero => intro k; simp [List.range', pairFold]
  | succ m ih =>
    intro k
    rw [List.range'_succ, List.map_cons, List.range'_succ, List.map_cons]
    simp only [pairFold]
    rw [← List.map_cons, ← List.range'_succ, ih (k + 1),
      Finset.sum_range_succ', add_comm]
    congr 1
    · refine Finset.sum_congr rfl fun j _ => ?_
      have e1 : k + 1 + j = k + (j + 1) := by omega
      rw [e1]

theorem pairFold_circleRing (f : ℝ × ℝ → ℝ × ℝ → ℝ) (r : ℝ) :
    pairFold f (circleRing r) =
      ∑ k ∈ Finset.range 32, f (circleVertex r k) (circleVertex r (k + 1)) := by
  rw [circleRing, List.range_eq_range',
    pairFold_range' f (circleVertex r) 32 0]
  exact Finset.sum_congr rfl fun j _ => by rw [Nat.zero_add]

theorem circle_cross (r : ℝ) (k : ℕ) :
    cross (circleVertex r k) (circleVertex r (k + 1)) =
      r ^ 2 * Real.sin (2 * Real.pi / 32) := by
  have key : ∀ a b : ℝ,
      r * Real.cos a * (r * Real.sin b) - r * Real.cos b * (r * Real.sin a) =
        r ^ 2 * Real.sin (b - a) := by
    intro a b
    rw [Real.sin_sub]
    ring
  simp only [circleVertex, cross]
  rw [key, Nat.cast_add, Nat.cast_one,
    show 2 * Real.pi * ((k : ℝ) + 1) / 32 - 2 * Real.pi * (k : ℝ) / 32 =
      2 * Real.pi / 32 by ring]

theorem circle_seg (r : ℝ) (hr : 0 ≤ r) (k : ℕ) :
    segLength (circleVertex r k) (circleVertex r (k + 1)) =
      2 * r * Real.sin (Real.pi / 32) := by
  have key : ∀ a b : ℝ,
      (r * Real.cos b - r * Real.cos a) ^ 2 + (r * Real.sin b - r * Real.sin a) ^ 2 =
        r ^ 2 * (2 * (1 - Real.cos (b - a))) := by
    intro a b
    rw [Real.cos_sub]
    have ha := Real.sin_sq_add_cos_sq a
    have hb := Real.sin_sq_add_cos_sq b
    nlinarith [ha, hb]
  simp only [circleVertex, segLength]
  rw [key]
  have harg : 2 * Real.pi * ((k : ℝ) + 1) / 32 - 2 * Real.pi * (k : ℝ) / 32 =
      2 * Real.pi / 32 := by ring
  push_cast
  rw [harg]
  have hhalf : Real.sin (2 * Real.pi / 32 / 2) =
      Real.sqrt ((1 - Real.cos (2 * Real.pi / 32)) / 2) :=
    Real.sin_half_eq_sqrt (by positivity)
      (by nlinarith [Real.pi_pos])
  have h2 : r ^ 2 * (2 * (1 - Real.cos (2 * Real.pi / 32))) =
      (2 * r) ^ 2 * ((1 - Real.cos (2 * Real.pi / 32)) / 2) := by ring
  rw [h2, Real.sqrt_mul (by positivity),
    Real.sqrt_sq (by positivity : (0:ℝ) ≤ 2 * r), ← hhalf,
    show 2 * Real.pi / 32 / 2 = Real.pi / 32 by ring]

/-- Pairing argument: a 32-term sum whose terms negate under a shift by 16
vanishes. -/
theorem sum_range32_neg_pair (g : ℕ → ℝ) (hg : ∀ k, g (k + 16) = -g k) :
    ∑ k ∈ Finset.range 32, g k = 0 := by
  rw [Finset.range_eq_Ico,
    ← Finset.sum_Ico_consecutive g (by norm_num : (0:ℕ) ≤ 16)
      (by norm_num : (16:ℕ) ≤ 32),
    Finset.sum_Ico_eq_sum_range, Finset.sum_Ico_eq_sum_range]
  have h2 : ∀ i ∈ Finset.range (32 - 16), g (16 + i) = -g (0 + i) := by
    intro i _
    rw [Nat.add_comm 16 i, hg, Nat.zero_add]
  rw [Finset.sum_congr rfl h2]
  simp

theorem sum_circle_cos (c : ℝ) :
    ∑ k ∈ Finset.range 32, Real.cos (2 * Real.pi * ((k : ℝ) + c) / 32) = 0 := by
  refine sum_range32_neg_pair _ fun k => ?_
  push_cast
  rw [show 2 * Real.pi * ((k : ℝ) + 16 + c) / 32 =
      2 * Real.pi * ((k : ℝ) + c) / 32 + Real.pi by ring,
    Real.cos_add_pi]

theorem sum_circle_sin (c : ℝ) :
    ∑ k ∈ Finset.range 32, Real.sin (2 * Real.pi * ((k : ℝ) + c) / 32) = 0 := by
  refine sum_range32_neg_pair _ fun k => ?_
  push_cast
  rw [show 2 * Real.pi * ((k : ℝ) + 16 + c) / 32 =
      2 * Real.pi * ((k : ℝ) + c) / 32 + Real.pi by ring,
    Real.sin_add_pi]

theorem sin_pi_div_sixteen_nonneg : 0 ≤ Real.sin (Real.pi / 16) :=
  Real.sin_nonneg_of_nonneg_of_le_pi (by positivity)
    (by nlinarith [Real.pi_pos])

theorem sin_pi_div_32_nonneg : 0 ≤ Real.sin (Real.pi / 32) :=
  Real.sin_nonneg_of_nonneg_of_le_pi (by positivity)
    (by nlinarith [Real.pi_pos])

theorem circle_shoelace (r : ℝ) :
    shoelaceSum (circleRing r) = 32 * (r ^ 2 * Real.sin (Real.pi / 16)) := by
  rw [shoelaceSum, pairFold_circleRing,
    Finset.sum_congr rfl fun k _ => circle_cross r k,
    Finset.sum_const, Finset.card_range, nsmul_eq_mul,
    show 2 * Real.pi / 32 = Real.pi / 16 by ring]
  push_cast
  ring

theorem circle_area_eq (r : ℝ) :
    Circular.area ⟨r⟩ = 16 * r ^ 2 * Real.sin (Real.pi / 16) := by
  have hs := sin_pi_div_sixteen_nonneg
  have h0 : 0 ≤ 32 * (r ^ 2 * Real.sin (Real.pi / 16)) := by
    have h1 : 0 ≤ r ^ 2 := sq_nonneg r
    nlinarith
  rw [Circular.area, ringArea, circle_shoelace, abs_of_nonneg h0]
  ring

theorem circle_perimeter_eq (r : ℝ) (hr : 0 ≤ r) :
    Circular.perimeter ⟨r⟩ = 64 * r * Real.sin (Real.pi / 32) := by
  rw [Circular.perimeter, ringLength, pairFold_circleRing,
    Finset.sum_congr rfl fun k _ => circle_seg r hr k,
    Finset.sum_const, Finset.card_range, nsmul_eq_mul]
  push_cast
  ring

theorem circle_centroid_num_x (r : ℝ) : centroidSumX (circleRing r) = 0 := by
  rw [centroidSumX, pairFold_circleRing]
  have hterm : ∀ k ∈ Finset.range 32,
      ((circleVertex r k).1 + (circleVertex r (k + 1)).1) *
          cross (circleVertex r k) (circleVertex r (k + 1)) =
        r ^ 2 * Real.sin (2 * Real.pi / 32) * r *
            Real.cos (2 * Real.pi * ((k : ℝ) + 0) / 32) +
          r ^ 2 * Real.sin (2 * Real.pi / 32) * r *
            Real.cos (2 * Real.pi * ((k : ℝ) + 1) / 32) := by
    intro k _
    rw [circle_cross]
    simp only [circleVertex]
    push_cast
    ring_nf
  rw [Finset.sum_congr rfl hterm, Finset.sum_add_distrib,
    ← Finset.mul_sum, ← Finset.mul_sum, sum_circle_cos 0, sum_circle_cos 1]
  ring

theorem circle_centroid_num_y (r : ℝ) : centroidSumY (circleRing r) = 0 := by
  rw [centroidSumY, pairFold_circleRing]
  have hterm : ∀ k ∈ Finset.range 32,
      ((circleVertex r k).2 + (circleVertex r (k + 1)).2) *
          cross (circleVertex r k) (circleVertex r (k + 1)) =
        r ^ 2 * Real.sin (2 * Real.pi / 32) * r *
            Real.sin (2 * Real.pi * ((k : ℝ) + 0) / 32) +
          r ^ 2 * Real.sin (2 * Real.pi / 32) * r *
            Real.sin (2 * Real.pi * ((k : ℝ) + 1) / 32) := by
    intro k _
    rw [circle_cross]
    simp only [circleVertex]
    push_cast
    ring_nf
  rw [Finset.sum_congr rfl hterm, Finset.sum_add_distrib,
    ← Finset.mul_sum, ← Finset.mul_sum, sum_circle_sin 0, sum_circle_sin 1]
  ring

theorem circle_centroid_eq (r : ℝ) : Circular.centroid ⟨r⟩ = (0, 0) := by
  rw [Circular.centroid, ringCentroid, circle_centroid_num_x,
    circle_centroid_num_y, zero_div]

theorem circle_area_approx (r : ℝ) (hr : 0 < r) :
    |Circular.area ⟨r⟩ - Real.pi * r ^ 2| ≤ Real.pi * r ^ 2 / 100 := by
  rw [circle_area_eq]
  have hpi : Real.pi < 3.15 := Real.pi_lt_d2
  have hpi0 : (0:ℝ) < Real.pi := Real.pi_pos
  have hx : (0:ℝ) < Real.pi / 16 := by positivity
  have hx1 : Real.pi / 16 ≤ 1 := by nlinarith
  have hup := Real.sin_lt hx
  have hlo := Real.sin_gt_sub_cube hx hx1
  have hr2 : (0:ℝ) < r ^ 2 := by positivity
  have hpi2 : Real.pi ^ 2 ≤ 9.9225 := by nlinarith
  rw [abs_le]
  constructor
  · nlinarith [mul_pos hpi0 hr2, mul_pos hr2 hx]
  · nlinarith [mul_pos hpi0 hr2]

theorem circle_perimeter_approx (r : ℝ) (hr : 0 < r) :
    |Circular.perimeter ⟨r⟩ - 2 * Real.pi * r| ≤ 2 * Real.pi * r / 100 := by
  rw [circle_perimeter_eq r hr.le]
  have hpi : Real.pi < 3.15 := Real.pi_lt_d2
  have hpi0 : (0:ℝ) < Real.pi := Real.pi_pos
  have hy : (0:ℝ) < Real.pi / 32 := by positivity
  have hy1 : Real.pi / 32 ≤ 1 := by nlinarith
  have hup := Real.sin_lt hy
  have hlo := Real.sin_gt_sub_cube hy hy1
  have hpi2 : Real.pi ^ 2 ≤ 9.9225 := by nlinarith
  rw [abs_le]
  constructor
  · nlinarith [mul_pos hpi0 hr, mul_pos hr hy]
  · nlinarith [mul_pos hpi0 hr]

theorem rect_shoelace (w h : ℝ) :
    shoelaceSum (Rectangular.vertices ⟨w, h⟩) = 2 * (w * h) := by
  simp [Rectangular.vertices, shoelaceSum, pairFold, cross]
  ring

theorem rect_area_eq (w h : ℝ) (hw : 0 ≤ w) (hh : 0 ≤ h) :
    Rectangular.area ⟨w, h⟩ = w * h := by
  rw [Rectangular.area, ringArea, rect_shoelace,
    abs_of_nonneg (by positivity)]
  ring

theorem rect_perimeter_eq (w h : ℝ) (hw : 0 ≤ w) (hh : 0 ≤ h) :
    Rectangular.perimeter ⟨w, h⟩ = 2 * (w + h) := by
  have sw : Real.sqrt (w ^ 2) = w := by
    rw [Real.sqrt_sq hw]
  have sh : Real.sqrt (h ^ 2) = h := by
    rw [Real.sqrt_sq hh]
  simp only [Rectangular.perimeter, ringLength, Rectangular.vertices, pairFold,
    segLength]
  ring_nf
  rw [sw, sh]

theorem rect_centroid_eq (w h : ℝ) (hw : 0 < w) (hh : 0 < h) :
    Rectangular.centroid ⟨w, h⟩ = (w / 2, h / 2) := by
  have hwh : w * h ≠ 0 := by positivity
  simp only [Rectangular.centroid, ringCentroid]
  rw [rect_shoelace]
  simp only [centroidSumX, centroidSumY, Rectangular.vertices, pairFold, cross,
    Prod.mk.injEq]
  constructor <;> (field_simp; ring)

/-- C1: for every rectangle with `width > 0` and `height > 0`, the area is
`width * height`, the perimeter is `2 * (width + height)`, and the centroid
is `(width / 2, height / 2)`. -/
theorem rectangle_invariants (w h : ℝ) (hw : 0 < w) (hh : 0 < h) :
    Rectangular.area ⟨w, h⟩ = w * h ∧
    Rectangular.perimeter ⟨w, h⟩ = 2 * (w + h) ∧
    Rectangular.centroid ⟨w, h⟩ = (w / 2, h / 2) :=
  ⟨rect_area_eq w h hw.le hh.le, rect_perimeter_eq w h hw.le hh.le,
    rect_centroid_eq w h hw hh⟩

/-- C1 witness: the rectangle with sides 4 and 3. -/
theorem rectangle_invariants_witness :
    Rectangular.area ⟨4, 3⟩ = 12 ∧
    Rectangular.perimeter ⟨4, 3⟩ = 14 ∧
    Rectangular.centroid ⟨4, 3⟩ = (2, 3 / 2) := by
  obtain ⟨h1, h2, h3⟩ :=
    rectangle_invariants 4 3 (by norm_num) (by norm_num)
  refine ⟨?_, ?_, ?_⟩
  · rw [h1]; norm_num
  · rw [h2]; norm_num
  · rw [h3]; norm_num

/-- C8: for every circle with `radius > 0`, the perimeter approximates
`2 * π * radius` and the area approximates `π * radius²` within the
implementation's geometric tolerance (the inscribed 32-gon of shapely's
buffer stays within 1% relative error), and the centroid equals `(0, 0)`. -/
theorem circle_invariants (r : ℝ) (hr : 0 < r) :
    |Circular.area ⟨r⟩ - Real.pi * r ^ 2| ≤ Real.pi * r ^ 2 / 100 ∧
    |Circular.perimeter ⟨r⟩ - 2 * Real.pi * r| ≤ 2 * Real.pi * r / 100 ∧
    Circular.centroid ⟨r⟩ = (0, 0) :=
  ⟨circle_area_approx r hr, circle_perimeter_approx r hr, circle_centroid_eq r⟩

/-- C8 witness: the unit circle. -/
theorem circle_invariants_witness :
    |Circular.area ⟨1⟩ - Real.pi * 1 ^ 2| ≤ Real.pi * 1 ^ 2 / 100 ∧
    |Circular.perimeter ⟨1⟩ - 2 * Real.pi * 1| ≤ 2 * Real.pi * 1 / 100 ∧
    Circular.centroid ⟨1⟩ = (0, 0) :=
  circle_invariants 1 one_pos

/-- C2: `Element.volume` returns `length_1 * length_2 * length_3` for a
rectangular element with all three lengths set, and `π * radius² * length_1`
for a circular element with radius and length set. -/
theorem element_volume_formulas (e : Element) (a b c r l : ℝ) :
    (e.sectionKind = .RECTANGULAR → e.length_1 = some a →
      e.length_2 = some b → e.length_3 = some c →
      e.volume = .ok (a * b * c)) ∧
    (e.sectionKind = .CIRCULAR → e.radius = some r → e.length_1 = some l →
      e.volume = .ok (Real.pi * r ^ 2 * l)) := by
  constructor
  · intro hs h1 h2 h3
    simp [Element.volume, hs, h1, h2, h3]
  · intro hs hrr hl
    simp [Element.volume, hs, hrr, hl]

/-- C2 witness: a rectangular element with lengths 4, 3, 2 has volume 24,
and a circular element with radius 2 and length 5 has volume `π * 2² * 5`. -/
theorem element_volume_formulas_witness :
    ((((mkElement .RECTANGULAR).set_length_1 4).set_length_2 3).set_length_3
        2).volume = .ok 24 ∧
    (((mkElement .CIRCULAR).set_radius 2).set_length_1 5).volume =
      .ok (Real.pi * 2 ^ 2 * 5) := by
  constructor
  · have h := (element_volume_formulas
      ((((mkElement .RECTANGULAR).set_length_1 4).set_length_2 3).set_length_3 2)
      4 3 2 0 0).1 rfl rfl rfl rfl
    rw [h]
    norm_num
  · exact (element_volume_formulas
      (((mkElement .CIRCULAR).set_radius 2).set_length_1 5) 0 0 0 2 5).2
      rfl rfl rfl

/-- C9: `Element.volume` fails with the unsupported-kind `ValueError` for any
section tag outside the enum, and fails (with the uncaught `TypeError` of the
`None` arithmetic) whenever a required dimension is unset. -/
theorem element_volume_errors (e : Element) (s : String) :
    (e.sectionKind = .other s →
      e.volume = .error (.valueError "Unsupported geometry type")) ∧
    (e.sectionKind = .RECTANGULAR →
      (e.length_1 = none ∨ e.length_2 = none ∨ e.length_3 = none) →
      e.volume =
        .error (.typeError "unsupported operand type(s) for *: NoneType")) ∧
    (e.sectionKind = .CIRCULAR →
      (e.radius = none ∨ e.length_1 = none) →
      e.volume =
        .error
          (.typeError "unsupported operand type(s) for ** or *: NoneType")) := by
  refine ⟨fun hs => ?_, fun hs hm => ?_, fun hs hm => ?_⟩
  · simp [Element.volume, hs]
  · cases h1 : e.length_1 <;> cases h2 : e.length_2 <;>
      cases h3 : e.length_3 <;> simp_all [Element.volume]
  · cases h1 : e.radius <;> cases h2 : e.length_1 <;>
      simp_all [Element.volume]

/-- C9 witness: a non-enum tag, a rectangular element missing `length_1` and
`length_3`, and a circular element with nothing set. -/
theorem element_volume_errors_witness :
    (mkElement (.other "triangle")).volume =
      .error (.valueError "Unsupported geometry type") ∧
    ((mkElement .RECTANGULAR).set_length_2 3).volume =
      .error (.typeError "unsupported operand type(s) for *: NoneType") ∧
    (mkElement .CIRCULAR).volume =
      .error (.typeError "unsupported operand type(s) for ** or *: NoneType") :=
  ⟨(element_volume_errors (mkElement (.other "triangle")) "triangle").1 rfl,
    (element_volume_errors ((mkElement .RECTANGULAR).set_length_2 3) "").2.1
      rfl (Or.inl rfl),
    (element_volume_errors (mkElement .CIRCULAR) "").2.2 rfl (Or.inl rfl)⟩

/-- C5 (the code evaluated at the failing input): a freshly constructed `Bar`
already has `x = y = None`, so reading `coordinates` returns the tuple
`(None, None)` and never the `"No coordinates assigned yet"` sentinel the
docstring promises; after `set_coordinates(10, 15)` it returns `(10, 15)`. -/
theorem bar_coordinates_behaviour :
    (mkBar ⟨1⟩).coordinates = .tup none none ∧
    (mkBar ⟨1⟩).coordinates ≠ .msg "No coordinates assigned yet" ∧
    ((mkBar ⟨1⟩).set_coordinates 10 15).coordinates =
      .tup (some 10) (some 15) := by
  refine ⟨rfl, fun h => ?_, rfl⟩
  exact CoordView.noConfusion h

/-- C6 (the code evaluated at the failing input): for a bar wrapping the unit
circle, reading `diameter` raises `AttributeError` because class `Circular`
defines no `diameter` attribute, while `area` does delegate to the wrapped
circle. -/
theorem bar_diameter_behaviour :
    (mkBar ⟨1⟩).diameter =
      .error (.attributeError "Circular object has no attribute diameter") ∧
    (mkBar ⟨1⟩).area = Circular.area ⟨1⟩ :=
  ⟨rfl, rfl⟩

/-- C3 counterexample: with `quantity = 0` (which is `≤ 1`),
`calculate_spacing(60)` does not fail as the claim demands; it succeeds and
sets `spacing = 60 / (0 - 1) = -60`. -/
theorem calculate_spacing_quantity_zero :
    (Reinforcement.calculate_spacing ⟨none, none, none, some 0, none⟩ 60).2 =
      none ∧
    (Reinforcement.calculate_spacing
        ⟨none, none, none, some 0, none⟩ 60).1.spacing = some (-60) := by
  constructor
  · rfl
  · show some ((60 : ℚ) / (((0 : ℤ) : ℚ) - 1)) = some (-60)
    norm_num

/-- C3 amended: `calculate_spacing(E)` sets `spacing = E / (quantity - 1)`
whenever `quantity` is set and `≠ 1`; it fails with the missing-quantity
error when `quantity` is unset, and with the invalid-quantity error exactly
when `quantity = 1`. -/
theorem calculate_spacing_spec (r : Reinforcement) (E : ℚ) (q : ℤ) :
    (r.quantity = none → r.calculate_spacing E =
      (r, some (.valueError "Provide a valid quantity of bars first."))) ∧
    (r.quantity = some 1 → r.calculate_spacing E =
      (r, some (.valueError
        "Quantity must be greater than 1 to calculate spacing."))) ∧
    (r.quantity = some q → q ≠ 1 → r.calculate_spacing E =
      ({ r with spacing := some (E / ((q : ℚ) - 1)) }, none)) := by
  refine ⟨fun h => ?_, fun h => ?_, fun h hq => ?_⟩
  · simp [Reinforcement.calculate_spacing, h]
  · simp [Reinforcement.calculate_spacing, h]
  · simp [Reinforcement.calculate_spacing, h, hq]

/-- C3 witness: unset quantity fails, quantity 1 fails, quantity 5 with
effective space 60 gives spacing 15. -/
theorem calculate_spacing_spec_witness :
    (Reinforcement.calculate_spacing ⟨none, none, none, none, none⟩ 60).2 =
      some (.valueError "Provide a valid quantity of bars first.") ∧
    (Reinforcement.calculate_spacing ⟨none, none, none, some 1, none⟩ 60).2 =
      some (.valueError
        "Quantity must be greater than 1 to calculate spacing.") ∧
    (Reinforcement.calculate_spacing
        ⟨none, none, none, some 5, none⟩ 60).1.spacing = some 15 := by
  refine ⟨?_, ?_, ?_⟩
  · rw [(calculate_spacing_spec ⟨none, none, none, none, none⟩ 60 0).1 rfl]
  · rw [(calculate_spacing_spec ⟨none, none, none, some 1, none⟩ 60 0).2.1 rfl]
  · rw [(calculate_spacing_spec ⟨none, none, none, some 5, none⟩ 60 5).2.2 rfl
      (by decide)]
    show some ((60 : ℚ) / (((5 : ℤ) : ℚ) - 1)) = some 15
    norm_num

/-- C4 counterexample: with `spacing = -5` (which is `≤ 0`),
`calculate_quantity(60)` does not fail as the claim demands (it succeeds and
stores `int(-12) + 1 = -11`); and with `spacing = 2`,
`effectiveSpace = -7` the stored quantity is `int(-3.5) + 1 = -2`, while the
claimed `floor(-3.5) + 1` is `-3`. -/
theorem calculate_quantity_counterexample :
    (Reinforcement.calculate_quantity ⟨none, none, none, none, some (-5)⟩
        60).2 = none ∧
    (Reinforcement.calculate_quantity ⟨none, none, none, none, some (-5)⟩
        60).1.quantity = some (-11) ∧
    (Reinforcement.calculate_quantity ⟨none, none, none, none, some 2⟩
        (-7)).1.quantity = some (-2) ∧
    ⌊(-7 : ℚ) / 2⌋ + 1 = (-3 : ℤ) := by
  refine ⟨rfl, ?_, ?_, ?_⟩
  · show some (pyInt ((60 : ℚ) / (-5)) + 1) = some (-11)
    norm_num [pyInt]
    rw [show (-12 : ℚ) = ((-12 : ℤ) : ℚ) by norm_num, Int.ceil_intCast]
    norm_num
  · show some (pyInt ((-7 : ℚ) / 2) + 1) = some (-2)
    norm_num [pyInt]
    have hc : ⌈-(7 / 2 : ℚ)⌉ = -3 := by
      rw [Int.ceil_eq_iff]
      norm_num
    rw [hc]
    norm_num
  · norm_num

/-- C4 amended: `calculate_quantity(E)` sets
`quantity = int(E / spacing) + 1` (Python `int()`, truncation toward zero)
whenever `spacing` is set and nonzero; it fails with the missing-spacing
error when `spacing` is unset, and with the invalid-spacing error exactly
when `spacing = 0`. -/
theorem calculate_quantity_spec (r : Reinforcement) (E : ℚ) (s : ℚ) :
    (r.spacing = none → r.calculate_quantity E =
      (r, some (.valueError "Provide a valid spacing first."))) ∧
    (r.spacing = some 0 → r.calculate_quantity E =
      (r, some (.valueError
        "Spacing must be greater than 0 to calculate quantity."))) ∧
    (r.spacing = some s → s ≠ 0 → r.calculate_quantity E =
      ({ r with quantity := some (pyInt (E / s) + 1) }, none)) := by
  refine ⟨fun h => ?_, fun h => ?_, fun h hs => ?_⟩
  · simp [Reinforcement.calculate_quantity, h]
  · simp [Reinforcement.calculate_quantity, h]
  · simp [Reinforcement.calculate_quantity, h, hs]

/-- C4 witness: unset spacing fails, spacing 0 fails, spacing 15 with
effective space 60 gives quantity 5. -/
theorem calculate_quantity_spec_witness :
    (Reinforcement.calculate_quantity ⟨none, none, none, none, none⟩ 60).2 =
      some (.valueError "Provide a valid spacing first.") ∧
    (Reinforcement.calculate_quantity ⟨none, none, none, none, some 0⟩ 60).2 =
      some (.valueError
        "Spacing must be greater than 0 to calculate quantity.") ∧
    (Reinforcement.calculate_quantity
        ⟨none, none, none, none, some 15⟩ 60).1.quantity = some 5 := by
  refine ⟨?_, ?_, ?_⟩
  · rw [(calculate_quantity_spec ⟨none, none, none, none, none⟩ 60 1).1 rfl]
  · rw [(calculate_quantity_spec ⟨none, none, none, none, some 0⟩ 60 1).2.1
      rfl]
  · rw [(calculate_quantity_spec ⟨none, none, none, none, some 15⟩ 60 15).2.2
      rfl (by decide)]
    show some (pyInt ((60 : ℚ) / 15) + 1) = some 5
    norm_num [pyInt]

/-- C7: for a reinforcement with `quantity = n > 1`, `calculate_spacing(E)`
with `E > 0` succeeds with `spacing = E / (n - 1)`, and a subsequent
`calculate_quantity(E)` succeeds and recovers `quantity = n`. -/
theorem spacing_quantity_roundtrip (r : Reinforcement) (n : ℤ) (E : ℚ)
    (hn : 1 < n) (hE : 0 < E) (hq : r.quantity = some n) :
    (r.calculate_spacing E).2 = none ∧
    (r.calculate_spacing E).1.spacing = some (E / ((n : ℚ) - 1)) ∧
    ((r.calculate_spacing E).1.calculate_quantity E).2 = none ∧
    ((r.calculate_spacing E).1.calculate_quantity E).1.quantity = some n := by
  have hne1 : n ≠ 1 := by omega
  have hn1 : (0 : ℚ) < (n : ℚ) - 1 := by
    have h1n : (1 : ℚ) < (n : ℚ) := by exact_mod_cast hn
    linarith
  have hs : (0 : ℚ) < E / ((n : ℚ) - 1) := div_pos hE hn1
  have step1 : r.calculate_spacing E =
      ({ r with spacing := some (E / ((n : ℚ) - 1)) }, none) := by
    simp [Reinforcement.calculate_spacing, hq, hne1]
  have hdiv : E / (E / ((n : ℚ) - 1)) = (n : ℚ) - 1 := by
    field_simp
  have hpy : pyInt ((n : ℚ) - 1) = n - 1 := by
    rw [pyInt, if_pos (by linarith : (0 : ℚ) ≤ (n : ℚ) - 1),
      show (n : ℚ) - 1 = ((n - 1 : ℤ) : ℚ) by push_cast; ring,
      Int.floor_intCast]
  have step2 :
      ({ r with spacing := some (E / ((n : ℚ) - 1)) } :
        Reinforcement).calculate_quantity E =
      ({ r with spacing := some (E / ((n : ℚ) - 1)), quantity := some n },
        none) := by
    simp only [Reinforcement.calculate_quantity]
    rw [if_neg (ne_of_gt hs), hdiv, hpy, sub_add_cancel]
  rw [step1]
  exact ⟨rfl, rfl, by rw [step2], by rw [step2]⟩

/-- C7 witness: quantity 5 and effective space 60 give spacing 15 and the
round trip recovers quantity 5. -/
theorem spacing_quantity_roundtrip_witness :
    ((⟨none, none, none, some 5, none⟩ :
        Reinforcement).calculate_spacing 60).1.spacing = some 15 ∧
    (((⟨none, none, none, some 5, none⟩ :
        Reinforcement).calculate_spacing 60).1.calculate_quantity
          60).1.quantity = some 5 := by
  obtain ⟨h1, h2, h3, h4⟩ := spacing_quantity_roundtrip
    ⟨none, none, none, some 5, none⟩ 5 60 (by norm_num) (by norm_num) rfl
  refine ⟨?_, h4⟩
  rw [h2]
  congr 1
  push_cast
  norm_num

/-- C10: atomicity — whenever `calculate_spacing` or `calculate_quantity`
reports an error, the returned reinforcement is the unchanged input (the
right-hand side is evaluated before any assignment). -/
theorem calculate_atomicity (r : Reinforcement) (E : ℚ) :
    ((r.calculate_spacing E).2.isSome = true →
      (r.calculate_spacing E).1 = r) ∧
    ((r.calculate_quantity E).2.isSome = true →
      (r.calculate_quantity E).1 = r) := by
  constructor <;> intro h
  · cases hq : r.quantity with
    | none => simp [Reinforcement.calculate_spacing, hq]
    | some q =>
      by_cases h1 : q = 1
      · simp [Reinforcement.calculate_spacing, hq, h1]
      · simp [Reinforcement.calculate_spacing, hq, h1] at h
  · cases hs : r.spacing with
    | none => simp [Reinforcement.calculate_quantity, hs]
    | some s =>
      by_cases h0 : s = 0
      · simp [Reinforcement.calculate_quantity, hs, h0]
      · simp [Reinforcement.calculate_quantity, hs, h0] at h

/-- C10 witness: both derivations fail on the empty reinforcement and leave
it unchanged. -/
theorem calculate_atomicity_witness :
    ((⟨none, none, none, none, none⟩ :
        Reinforcement).calculate_spacing 60).2.isSome = true ∧
    ((⟨none, none, none, none, none⟩ :
        Reinforcement).calculate_spacing 60).1 =
      ⟨none, none, none, none, none⟩ ∧
    ((⟨none, none, none, none, none⟩ :
        Reinforcement).calculate_quantity 60).2.isSome = true ∧
    ((⟨none, none, none, none, none⟩ :
        Reinforcement).calculate_quantity 60).1 =
      ⟨none, none, none, none, none⟩ :=
  ⟨rfl, (calculate_atomicity ⟨none, none, none, none, none⟩ 60).1 rfl, rfl,
    (calculate_atomicity ⟨none, none, none, none, none⟩ 60).2 rfl⟩

end Calcrete
